import Mathlib

/-!
Verification of the diff-to-quiz pipeline of the RuleYourUsage repository.

The development shallowly embeds the TypeScript modules
src/doi/git/extract.ts, src/doi/ui/interactive.ts and the
question-generation module, and proves the documented properties of the
parsers, the quiz planner and the session statistics.

JavaScript primitives (String.prototype.split, trim, indexOf, parseInt,
Math.floor, Math.ceil, Math.round, Map) are modelled explicitly.  Numeric
code is carried out exactly: integer quantities as Int (JavaScript numbers
are exact on these magnitudes), fractional intermediate values as Rat.
-/

/-- Whitespace in the sense of JavaScript String.prototype.trim
(ECMA-262 WhiteSpace and LineTerminator code points). -/
def jsIsWhitespace (c : Char) : Bool :=
  c = ' ' || c = '\t' || c = '\n' || c = '\r' ||
  c = '\x0b' || c = '\x0c' || c = '\u00A0' || c = '\u2028' || c = '\u2029' || c = '\uFEFF'

/-- Auxiliary splitter: the first separator-free group of the list and the
remaining groups. -/
def splitAux (sep : Char) : List Char → List Char × List (List Char)
  | [] => ([], [])
  | c :: rest =>
    let r := splitAux sep rest
    if c = sep then ([], r.1 :: r.2) else (c :: r.1, r.2)

/-- JavaScript String.prototype.split with a one-character separator, on
the character-list representation.  The result is always non-empty. -/
def jsSplitChars (sep : Char) (l : List Char) : List (List Char) :=
  (splitAux sep l).1 :: (splitAux sep l).2

/-- JavaScript String.prototype.split with a one-character separator. -/
def jsSplit (s : String) (sep : Char) : List String :=
  (jsSplitChars sep s.data).map List.asString

/-- Character-list version of JavaScript String.prototype.trim. -/
def jsTrimChars (l : List Char) : List Char :=
  ((l.dropWhile jsIsWhitespace).reverse.dropWhile jsIsWhitespace).reverse

/-- JavaScript String.prototype.trim. -/
def jsTrim (s : String) : String :=
  (jsTrimChars s.data).asString

/-- Line preprocessing shared by every parser in src/doi/git/extract.ts:
trim the whole input, split on newlines, keep the truthy (non-empty)
lines. -/
def toLines (s : String) : List String :=
  (jsSplit (jsTrim s) '\n').filter (fun l => l != "")

/-- JavaScript String.prototype.indexOf for one character: index of the
first occurrence, or -1 when the character is absent. -/
def jsIndexOf : List Char → Char → Int
  | [], _ => -1
  | d :: rest, c =>
    if d = c then 0
    else
      let r := jsIndexOf rest c
      if r = -1 then -1 else r + 1

/-- Decimal value of a digit run. -/
def digitsToNat (l : List Char) : Nat :=
  l.foldl (fun acc c => 10 * acc + (c.toNat - '0'.toNat)) 0

/-- JavaScript parseInt(s, 10): skip leading whitespace, read an optional
sign, then a maximal run of decimal digits; the result is NaN (modelled
as none) when no digit is found. -/
def jsParseInt (s : String) : Option Int :=
  let l := s.data.dropWhile jsIsWhitespace
  let signed : Bool × List Char :=
    match l with
    | '-' :: rest => (true, rest)
    | '+' :: rest => (false, rest)
    | _ => (false, l)
  let digits := signed.2.takeWhile Char.isDigit
  if digits.isEmpty then none
  else some (if signed.1 then -(digitsToNat digits : Int) else (digitsToNat digits : Int))

/-- Change type of a file, from the ChangedFile interface in
src/doi/types.ts. -/
inductive ChangeType
  | added
  | modified
  | deleted
  | renamed
  deriving DecidableEq

/-- A changed file as actually produced at run time by the parsers in
src/doi/git/extract.ts.  The TypeScript interface declares path as a
string and the line counts as numbers, but at run time a malformed
numstat line leaves path undefined (none here) and parseInt yields NaN
(none here), so the runtime-faithful field types are optional. -/
structure ChangedFile where
  path : Option String
  changeType : ChangeType
  linesAdded : Option Int
  linesRemoved : Option Int
  newPath : Option String
  deriving DecidableEq

/-- Loop body of parseNumstat in src/doi/git/extract.ts, for one line of
git diff numstat output (added TAB removed TAB path). -/
def parseNumstatLine (line : String) : ChangedFile :=
  let parts := jsSplit line '\t'
  let added := parts.headD ""
  let removed := parts[1]?
  let path := parts[2]?
  let linesAdded := if added = "-" then some (0 : Int) else jsParseInt added
  let linesRemoved :=
    match removed with
    | some r => if r = "-" then some (0 : Int) else jsParseInt r
    | none => none
  -- the source initialises changeType to modified and its only
  -- conditional branch assigns modified again
  let changeType :=
    if (linesRemoved == some 0) &&
        (match linesAdded with | some a => decide (0 < a) | none => false) then
      ChangeType.modified
    else ChangeType.modified
  { path := path, changeType := changeType, linesAdded := linesAdded,
    linesRemoved := linesRemoved, newPath := none }

/-- parseNumstat from src/doi/git/extract.ts. -/
def parseNumstat (numstatOutput : String) : List ChangedFile :=
  (toLines numstatOutput).map parseNumstatLine

/-- Value stored in the name-status map: the accurate change type plus
the new path for renames. -/
structure NameStatusInfo where
  type : ChangeType
  newPath : Option String
  deriving DecidableEq

/-- Insertion-ordered association list modelling the JavaScript Map used
by parseNameStatus; a key may be undefined (none) when a malformed line
has no path field. -/
abbrev NameStatusMap := List (Option String × NameStatusInfo)

/-- JavaScript Map.prototype.set: overwrite in place when the key is
present, otherwise append. -/
def mapSet (m : NameStatusMap) (k : Option String) (v : NameStatusInfo) : NameStatusMap :=
  if m.any (fun p => p.1 == k) then
    m.map (fun p => if p.1 == k then (k, v) else p)
  else m ++ [(k, v)]

/-- JavaScript Map.prototype.get; keys of a Map are unique, so the first
matching binding is the binding. -/
def mapGet (m : NameStatusMap) (k : Option String) : Option NameStatusInfo :=
  (m.find? (fun p => p.1 == k)).map Prod.snd

/-- JavaScript String.prototype.startsWith with the one-character prefix
used by parseNameStatus. -/
def startsWithR (s : String) : Bool :=
  match s.data with
  | 'R' :: _ => true
  | _ => false

/-- Loop body of parseNameStatus in src/doi/git/extract.ts. -/
def parseNameStatusLine (m : NameStatusMap) (line : String) : NameStatusMap :=
  let parts := jsSplit line '\t'
  let status := parts.headD ""
  if startsWithR status then
    -- rename: R<score> TAB old-path TAB new-path, keyed by the old path
    mapSet m parts[1]? { type := ChangeType.renamed, newPath := parts[2]? }
  else if status = "A" then
    mapSet m parts[1]? { type := ChangeType.added, newPath := none }
  else if status = "D" then
    mapSet m parts[1]? { type := ChangeType.deleted, newPath := none }
  else
    -- M and any other status treated as modified
    mapSet m parts[1]? { type := ChangeType.modified, newPath := none }

/-- parseNameStatus from src/doi/git/extract.ts. -/
def parseNameStatus (nameStatusOutput : String) : NameStatusMap :=
  (toLines nameStatusOutput).foldl parseNameStatusLine []

/-- A commit on the branch, from the BranchCommit interface in
src/doi/types.ts. -/
structure BranchCommit where
  sha : String
  message : String
  deriving DecidableEq

/-- Loop body of parseCommitLog: a line contributes a commit exactly when
its first space sits at a positive index; sha is the text before that
space, message the text after it. -/
def parseCommitLine (line : String) : Option BranchCommit :=
  let spaceIndex := jsIndexOf line.data ' '
  if 0 < spaceIndex then
    some { sha := (line.data.take spaceIndex.toNat).asString,
           message := (line.data.drop (spaceIndex.toNat + 1)).asString }
  else none

/-- parseCommitLog from src/doi/git/extract.ts. -/
def parseCommitLog (logOutput : String) : List BranchCommit :=
  (toLines logOutput).filterMap parseCommitLine

/-- mergeFileData from src/doi/git/extract.ts: line counts stay from the
numstat pass, change type and new path come from the name-status pass
when that pass knows the path. -/
def mergeFileData (numstatFiles : List ChangedFile) (nameStatusMap : NameStatusMap) :
    List ChangedFile :=
  numstatFiles.map fun file =>
    match mapGet nameStatusMap file.path with
    | some statusInfo =>
      { file with changeType := statusInfo.type, newPath := statusInfo.newPath }
    | none => file

/-- Aggregate diff statistics, from the DiffStats interface in
src/doi/types.ts. -/
structure DiffStats where
  filesChanged : Int
  linesAdded : Int
  linesRemoved : Int
  netChange : Int
  deriving DecidableEq

/-- calculateQuestionCount from src/doi/git/extract.ts.  Math.floor of an
exact quotient with positive divisor is integer floor division, which is
what the Int division below computes. -/
def calculateQuestionCount (stats : DiffStats) (minQuestions maxQuestions : Int) : Int :=
  let totalLines := stats.linesAdded + stats.linesRemoved
  let recommended :=
    if totalLines ≤ 50 then 2
    else if totalLines ≤ 200 then 4 + (totalLines - 50) / 50
    else if totalLines ≤ 500 then 6 + (totalLines - 200) / 150
    else 8 + min 2 ((totalLines - 500) / 250)
  max minQuestions (min maxQuestions recommended)

/-- JavaScript Math.round: round half toward positive infinity. -/
def jsRound (q : ℚ) : Int := Int.floor (q + 1 / 2)

/-- Extension extraction used by calculateComplexity: split the path on
dots and take the last group, with the empty string as fallback.  The
source would throw on an undefined path, which cannot happen for
type-correct inputs; none is mapped to the empty string here. -/
def fileExtension (path : Option String) : String :=
  match path with
  | some p => ((jsSplitChars '.' p.data).getLastD []).asString
  | none => ""

/-- calculateComplexity from src/doi/git/extract.ts, with the JavaScript
number arithmetic carried out exactly over the rationals.  The size of a
JavaScript Set built from a list is the number of distinct elements. -/
def calculateComplexity (files : List ChangedFile) (stats : DiffStats) : Int :=
  let fileCountScore : ℚ := min 25 ((files.length : ℚ) * (5 / 2))
  let totalLines : ℚ := (stats.linesAdded : ℚ) + (stats.linesRemoved : ℚ)
  let lineScore : ℚ := fileCountScore + min 25 (totalLines / 20)
  let extensions := (files.map fun f => fileExtension f.path).dedup
  let extScore : ℚ := lineScore + min 25 ((extensions.length : ℚ) * 5)
  let churnScore : ℚ :=
    if 0 < stats.linesAdded then
      extScore + min 25 ((stats.linesRemoved : ℚ) / (stats.linesAdded : ℚ) * 15)
    else extScore
  min 100 (jsRound churnScore)

/-- Change categories, from the ChangeCategory union in src/doi/types.ts. -/
inductive ChangeCategory
  | newFeature
  | modifiedLogic
  | refactoring
  | deletion
  | configuration
  | documentation
  | testing
  deriving DecidableEq

/-- A categorized change, from the CategorizedChange interface in
src/doi/types.ts. -/
structure CategorizedChange where
  category : ChangeCategory
  description : String
  files : List String
  deriving DecidableEq

/-- The analysis summary consumed by the planner, from the DiffSummary
interface in src/doi/types.ts. -/
structure DiffSummary where
  overview : String
  changes : List CategorizedChange
  inferredIntent : String
  keyFiles : List String
  stats : DiffStats
  filesChanged : List String
  deriving DecidableEq

/-- calculateRecommendedQuestionCount from the question-generation
module.  Math.floor(count * 0.6) is the integer floor of 3 * count / 5,
which the Int division computes. -/
def calculateRecommendedQuestionCount (summary : DiffSummary)
    (minQuestions maxQuestions : Int) : Int :=
  let totalLines := summary.stats.linesAdded + summary.stats.linesRemoved
  let baseCount :=
    if totalLines ≤ 50 then 2
    else if totalLines ≤ 200 then min 6 (3 + (totalLines - 50) / 50)
    else if totalLines ≤ 500 then min 8 (5 + (totalLines - 200) / 100)
    else min 10 (7 + (totalLines - 500) / 200)
  let fileAdjusted :=
    if 10 < summary.filesChanged.length then min (baseCount + 1) maxQuestions else baseCount
  let hasLogicChanges := summary.changes.any fun c =>
    c.category == ChangeCategory.newFeature || c.category == ChangeCategory.modifiedLogic
  let scaled :=
    if hasLogicChanges then fileAdjusted
    else max minQuestions ((3 * fileAdjusted) / 5)
  max minQuestions (min maxQuestions scaled)

/-- The four-way category split returned by distributeQuestionCategories. -/
structure CategoryDistribution where
  why : Int
  how : Int
  whatIf : Int
  impact : Int
  deriving DecidableEq

/-- Math.ceil of a quarter of an integer (0.25 is exact in binary
floating point). -/
def ceilQuarter (x : Int) : Int := (x + 3) / 4

/-- Math.ceil of two fifths of an integer (x * 0.4 rounds to the exact
product on the reachable magnitudes). -/
def ceilTwoFifths (x : Int) : Int := (2 * x + 4) / 5

/-- Math.ceil of half of an integer (0.5 is exact in binary floating
point). -/
def ceilHalf (x : Int) : Int := (x + 1) / 2

/-- distributeQuestionCategories from the question-generation module. -/
def distributeQuestionCategories (totalQuestions : Int) (summary : DiffSummary) :
    CategoryDistribution :=
  let hasNewFeatures := summary.changes.any fun c => c.category == ChangeCategory.newFeature
  let hasModifiedLogic := summary.changes.any fun c => c.category == ChangeCategory.modifiedLogic
  let hasDeletions := summary.changes.any fun c => c.category == ChangeCategory.deletion
  let hasRefactoring := summary.changes.any fun c => c.category == ChangeCategory.refactoring
  -- always at least one why question
  let why := ceilQuarter totalQuestions
  let remaining₁ := totalQuestions - why
  -- how questions for new features and modifications
  let how₁ := if hasNewFeatures || hasModifiedLogic then ceilTwoFifths remaining₁ else 0
  let remaining₂ := remaining₁ - how₁
  -- what-if for complex logic
  let whatIf := if hasModifiedLogic || hasNewFeatures then ceilHalf remaining₂ else 0
  let remaining₃ := remaining₂ - whatIf
  -- impact for refactoring and deletions, else fold the rest into how
  if hasRefactoring || hasDeletions || hasModifiedLogic then
    { why := why, how := how₁, whatIf := whatIf, impact := remaining₃ }
  else
    { why := why, how := how₁ + remaining₃, whatIf := whatIf, impact := 0 }

/-- Quiz statistics, from the QuizStats interface in src/doi/types.ts. -/
structure QuizStats where
  totalQuestions : Int
  correct : Int
  incorrect : Int
  skipped : Int
  vibeDebtPercent : Int
  deriving DecidableEq

/-- Status of a question, from the QuestionStatus union in
src/doi/types.ts. -/
inductive QuestionStatus
  | pending
  | correct
  | incorrect
  | skipped
  | revealed
  deriving DecidableEq

/-- createInitialStats from src/doi/ui/interactive.ts. -/
def createInitialStats (totalQuestions : Int) : QuizStats :=
  { totalQuestions := totalQuestions, correct := 0, incorrect := 0, skipped := 0,
    vibeDebtPercent := 0 }

/-- Recomputation of vibeDebtPercent:
Math.round(((incorrect + skipped) / totalQuestions) * 100), carried out
exactly over the rationals.  For totalQuestions = 0 the JavaScript value
is NaN; every stated property assumes a positive total. -/
def computeVibeDebt (incorrect skipped totalQuestions : Int) : Int :=
  jsRound (((incorrect : ℚ) + (skipped : ℚ)) / (totalQuestions : ℚ) * 100)

/-- updateStats from src/doi/ui/interactive.ts; revealed counts as vibe
debt with the same weight as incorrect, and vibeDebtPercent is recomputed
after every transition. -/
def updateStats (stats : QuizStats) (result : QuestionStatus) : QuizStats :=
  let updated :=
    match result with
    | QuestionStatus.correct => { stats with correct := stats.correct + 1 }
    | QuestionStatus.incorrect | QuestionStatus.revealed =>
      { stats with incorrect := stats.incorrect + 1 }
    | QuestionStatus.skipped => { stats with skipped := stats.skipped + 1 }
    | QuestionStatus.pending => stats
  { updated with
    vibeDebtPercent :=
      computeVibeDebt updated.incorrect updated.skipped updated.totalQuestions }

/-- skipRemaining from src/doi/ui/interactive.ts. -/
def skipRemaining (stats : QuizStats) (remainingCount : Int) : QuizStats :=
  { stats with
    skipped := stats.skipped + remainingCount,
    vibeDebtPercent :=
      computeVibeDebt stats.incorrect (stats.skipped + remainingCount) stats.totalQuestions }

/-- Modelled from the spec: the quiz-loop orchestration that applies one
externally supplied verdict to a selected question is carried by the
skill definition driving the session and is not part of the src tree.
Per the session contract, scoring a question whose status is already
terminal (anything other than pending) is a contract violation reported
as an error, never silently ignored; scoring a pending question records
the verdict and updates the running stats exactly once via updateStats. -/
def scoreQuestion (statuses : List QuestionStatus) (i : Nat)
    (verdict : QuestionStatus) (stats : QuizStats) :
    Except String (List QuestionStatus × QuizStats) :=
  match statuses[i]? with
  | none => Except.error "no such question"
  | some QuestionStatus.pending =>
    Except.ok (statuses.set i verdict, updateStats stats verdict)
  | some _ => Except.error "question already scored"

/-- Sample summary: a diff touching only configuration and documentation
at 300 changed lines, used to instantiate the planner theorems. -/
def sampleSummary300 : DiffSummary :=
  { overview := "config and docs only",
    changes := [{ category := ChangeCategory.configuration, description := "config",
                  files := ["a.json"] },
                { category := ChangeCategory.documentation, description := "docs",
                  files := ["b.md"] }],
    inferredIntent := "maintenance",
    keyFiles := [],
    stats := { filesChanged := 2, linesAdded := 150, linesRemoved := 150, netChange := 0 },
    filesChanged := ["a.json", "b.md"] }

/-- Sample changed-file list used to instantiate the extractor theorems. -/
def sampleFiles : List ChangedFile :=
  [{ path := some "old.ts", changeType := ChangeType.modified,
     linesAdded := some 5, linesRemoved := some 3, newPath := none }]

/-- Sample name-status map holding one rename record. -/
def sampleMap : NameStatusMap :=
  [(some "old.ts", { type := ChangeType.renamed, newPath := some "new.ts" })]

/-- Sample diff statistics used to instantiate the complexity theorem. -/
def sampleStats : DiffStats :=
  { filesChanged := 1, linesAdded := 5, linesRemoved := 3, netChange := 2 }

/-- C1: distributeQuestionCategories maps each of the four question
categories (why, how, what-if, impact) to a non-negative integer, and
the four values sum exactly to the total question count: every unit of
the total lands in exactly one category. -/
theorem distributeQuestionCategories_sum (n : Int) (summary : DiffSummary) (hn : 0 ≤ n) :
    0 ≤ (distributeQuestionCategories n summary).why ∧
    0 ≤ (distributeQuestionCategories n summary).how ∧
    0 ≤ (distributeQuestionCategories n summary).whatIf ∧
    0 ≤ (distributeQuestionCategories n summary).impact ∧
    (distributeQuestionCategories n summary).why +
      (distributeQuestionCategories n summary).how +
      (distributeQuestionCategories n summary).whatIf +
      (distributeQuestionCategories n summary).impact = n := by
  unfold distributeQuestionCategories
  cases h₁ : summary.changes.any (fun c => c.category == ChangeCategory.newFeature) <;>
    cases h₂ : summary.changes.any (fun c => c.category == ChangeCategory.modifiedLogic) <;>
    cases h₃ : summary.changes.any (fun c => c.category == ChangeCategory.deletion) <;>
    cases h₄ : summary.changes.any (fun c => c.category == ChangeCategory.refactoring) <;>
    simp [h₁, h₂, h₃, h₄, ceilQuarter, ceilTwoFifths, ceilHalf] <;>
    omega

/-- Witness for C1 at the concrete total 7 and the sample summary. -/
theorem distributeQuestionCategories_sum_witness :
    (0 : Int) ≤ 7 ∧
    (distributeQuestionCategories 7 sampleSummary300).why +
      (distributeQuestionCategories 7 sampleSummary300).how +
      (distributeQuestionCategories 7 sampleSummary300).whatIf +
      (distributeQuestionCategories 7 sampleSummary300).impact = 7 :=
  ⟨by decide, (distributeQuestionCategories_sum 7 sampleSummary300 (by decide)).2.2.2.2⟩

/-- C2: the base question count of calculateQuestionCount follows the
documented piecewise formula on totalLines = linesAdded + linesRemoved
and the result is the clamp of that base count to the configured
bounds; in particular totalLines 0 with bounds [2, 10] gives 2,
totalLines 120 gives base count 5, and totalLines 650 gives base
count 8. -/
theorem calculateQuestionCount_formula :
    (∀ (stats : DiffStats) (minQuestions maxQuestions : Int),
      calculateQuestionCount stats minQuestions maxQuestions =
        max minQuestions (min maxQuestions
          (if stats.linesAdded + stats.linesRemoved ≤ 50 then 2
           else if stats.linesAdded + stats.linesRemoved ≤ 200 then
             4 + (stats.linesAdded + stats.linesRemoved - 50) / 50
           else if stats.linesAdded + stats.linesRemoved ≤ 500 then
             6 + (stats.linesAdded + stats.linesRemoved - 200) / 150
           else 8 + min 2 ((stats.linesAdded + stats.linesRemoved - 500) / 250)))) ∧
    calculateQuestionCount
      { filesChanged := 0, linesAdded := 0, linesRemoved := 0, netChange := 0 } 2 10 = 2 ∧
    (4 + ((120 : Int) - 50) / 50 = 5) ∧
    calculateQuestionCount
      { filesChanged := 1, linesAdded := 120, linesRemoved := 0, netChange := 120 } 2 10 = 5 ∧
    (8 + min 2 (((650 : Int) - 500) / 250) = 8) ∧
    calculateQuestionCount
      { filesChanged := 1, linesAdded := 400, linesRemoved := 250, netChange := 150 } 2 10 = 8 :=
  ⟨fun _ _ _ => rfl, by decide, by decide, by decide, by decide, by decide⟩

/-- Bounds characterising computeVibeDebt as the half-up rounding of
100 * (incorrect + skipped) / totalQuestions, stated multiplicatively to
avoid restating the rounding definition. -/
theorem computeVibeDebt_bounds (inc skp t : Int) (ht : 0 < t) :
    2 * t * computeVibeDebt inc skp t ≤ 200 * (inc + skp) + t ∧
    200 * (inc + skp) + t < 2 * t * (computeVibeDebt inc skp t + 1) := by
  have htQ : (0 : ℚ) < (t : ℚ) := by exact_mod_cast ht
  have htne : (t : ℚ) ≠ 0 := ne_of_gt htQ
  have hD : (0 : ℚ) < 2 * (t : ℚ) := by linarith
  have key : ((inc : ℚ) + (skp : ℚ)) / (t : ℚ) * 100 + 1 / 2 =
      ((200 * (inc + skp) + t : Int) : ℚ) / (2 * (t : ℚ)) := by
    push_cast
    field_simp
    ring
  unfold computeVibeDebt jsRound
  rw [key]
  have h1 : ((Int.floor (((200 * (inc + skp) + t : Int) : ℚ) / (2 * (t : ℚ)))) : ℚ) ≤
      ((200 * (inc + skp) + t : Int) : ℚ) / (2 * (t : ℚ)) := Int.floor_le _
  have h2 : ((200 * (inc + skp) + t : Int) : ℚ) / (2 * (t : ℚ)) <
      (Int.floor (((200 * (inc + skp) + t : Int) : ℚ) / (2 * (t : ℚ)))) + 1 :=
    Int.lt_floor_add_one _
  constructor
  · have h3 := (le_div_iff₀ hD).mp h1
    have h4 : ((2 * t * Int.floor (((200 * (inc + skp) + t : Int) : ℚ) / (2 * (t : ℚ))) : Int) : ℚ) ≤
        ((200 * (inc + skp) + t : Int) : ℚ) := by push_cast; push_cast at h3; linarith
    exact_mod_cast h4
  · have h3 := (div_lt_iff₀ hD).mp h2
    have h4 : ((200 * (inc + skp) + t : Int) : ℚ) <
        ((2 * t * (Int.floor (((200 * (inc + skp) + t : Int) : ℚ) / (2 * (t : ℚ))) + 1) : Int) : ℚ) := by
      push_cast; push_cast at h3; linarith
    exact_mod_cast h4

/-- C3: one updateStats transition increments correct on verdict correct,
increments incorrect on verdicts incorrect and revealed (revealed has
identical weight to a wrong answer), increments skipped on verdict
skipped, leaves the other counters and the total unchanged, and after
every transition recomputes vibeDebtPercent as the half-up rounding of
100 * (incorrect + skipped) / totalQuestions (stated by the two
multiplicative bounds that pin that rounding down). -/
theorem updateStats_transition (s : QuizStats) (h : 0 < s.totalQuestions) :
    ((updateStats s QuestionStatus.correct).correct = s.correct + 1 ∧
      (updateStats s QuestionStatus.correct).incorrect = s.incorrect ∧
      (updateStats s QuestionStatus.correct).skipped = s.skipped) ∧
    ((updateStats s QuestionStatus.incorrect).incorrect = s.incorrect + 1 ∧
      (updateStats s QuestionStatus.incorrect).correct = s.correct ∧
      (updateStats s QuestionStatus.incorrect).skipped = s.skipped) ∧
    ((updateStats s QuestionStatus.revealed).incorrect = s.incorrect + 1 ∧
      (updateStats s QuestionStatus.revealed).correct = s.correct ∧
      (updateStats s QuestionStatus.revealed).skipped = s.skipped) ∧
    ((updateStats s QuestionStatus.skipped).skipped = s.skipped + 1 ∧
      (updateStats s QuestionStatus.skipped).correct = s.correct ∧
      (updateStats s QuestionStatus.skipped).incorrect = s.incorrect) ∧
    (∀ v : QuestionStatus,
      (updateStats s v).totalQuestions = s.totalQuestions ∧
      2 * s.totalQuestions * (updateStats s v).vibeDebtPercent ≤
        200 * ((updateStats s v).incorrect + (updateStats s v).skipped) +
          s.totalQuestions ∧
      200 * ((updateStats s v).incorrect + (updateStats s v).skipped) +
          s.totalQuestions <
        2 * s.totalQuestions * ((updateStats s v).vibeDebtPercent + 1)) := by
  refine ⟨⟨rfl, rfl, rfl⟩, ⟨rfl, rfl, rfl⟩, ⟨rfl, rfl, rfl⟩, ⟨rfl, rfl, rfl⟩, fun v => ?_⟩
  cases v <;>
    exact ⟨rfl, (computeVibeDebt_bounds _ _ _ h).1, (computeVibeDebt_bounds _ _ _ h).2⟩

/-- Witness for C3 at a concrete four-question session. -/
theorem updateStats_transition_witness :
    (0 : Int) < (createInitialStats 4).totalQuestions ∧
    (updateStats (createInitialStats 4) QuestionStatus.correct).correct =
      (createInitialStats 4).correct + 1 :=
  ⟨by decide, (updateStats_transition (createInitialStats 4) (by decide)).1.1⟩

/-- C5: skipRemaining adds the full count of not-yet-answered questions
to skipped in one step, keeps the other counters and the total, and
recomputes vibeDebtPercent over the enlarged skipped count; the concrete
session with six questions, two correct answers and one incorrect answer
followed by skip-all ends with correct 2, incorrect 1, skipped 3 and
vibeDebtPercent 67. -/
theorem skipRemaining_spec (s : QuizStats) (r : Int) :
    ((skipRemaining s r).skipped = s.skipped + r ∧
      (skipRemaining s r).correct = s.correct ∧
      (skipRemaining s r).incorrect = s.incorrect ∧
      (skipRemaining s r).totalQuestions = s.totalQuestions ∧
      (0 < s.totalQuestions →
        2 * s.totalQuestions * (skipRemaining s r).vibeDebtPercent ≤
          200 * (s.incorrect + (s.skipped + r)) + s.totalQuestions ∧
        200 * (s.incorrect + (s.skipped + r)) + s.totalQuestions <
          2 * s.totalQuestions * ((skipRemaining s r).vibeDebtPercent + 1))) ∧
    ((skipRemaining (updateStats (updateStats (updateStats (createInitialStats 6)
          QuestionStatus.correct) QuestionStatus.correct) QuestionStatus.incorrect)
        3).totalQuestions = 6 ∧
      (skipRemaining (updateStats (updateStats (updateStats (createInitialStats 6)
          QuestionStatus.correct) QuestionStatus.correct) QuestionStatus.incorrect)
        3).correct = 2 ∧
      (skipRemaining (updateStats (updateStats (updateStats (createInitialStats 6)
          QuestionStatus.correct) QuestionStatus.correct) QuestionStatus.incorrect)
        3).incorrect = 1 ∧
      (skipRemaining (updateStats (updateStats (updateStats (createInitialStats 6)
          QuestionStatus.correct) QuestionStatus.correct) QuestionStatus.incorrect)
        3).skipped = 3 ∧
      (skipRemaining (updateStats (updateStats (updateStats (createInitialStats 6)
          QuestionStatus.correct) QuestionStatus.correct) QuestionStatus.incorrect)
        3).vibeDebtPercent = 67) := by
  constructor
  · refine ⟨rfl, rfl, rfl, rfl, fun ht => ?_⟩
    exact ⟨(computeVibeDebt_bounds _ _ _ ht).1, (computeVibeDebt_bounds _ _ _ ht).2⟩
  · refine ⟨rfl, rfl, rfl, rfl, ?_⟩
    show computeVibeDebt 1 (0 + 3) 6 = 67
    unfold computeVibeDebt jsRound
    rw [Int.floor_eq_iff]
    constructor <;> norm_num

/-- Witness for C5: the skip-all bound instantiated at the concrete
mid-session state with one incorrect answer and three remaining. -/
theorem skipRemaining_spec_witness :
    (0 : Int) <
      (QuizStats.mk 6 2 1 0 17).totalQuestions ∧
    2 * (QuizStats.mk 6 2 1 0 17).totalQuestions *
        (skipRemaining (QuizStats.mk 6 2 1 0 17) 3).vibeDebtPercent ≤
      200 * ((QuizStats.mk 6 2 1 0 17).incorrect +
        ((QuizStats.mk 6 2 1 0 17).skipped + 3)) +
        (QuizStats.mk 6 2 1 0 17).totalQuestions :=
  ⟨by decide,
    (((skipRemaining_spec (QuizStats.mk 6 2 1 0 17) 3).1.2.2.2.2) (by decide)).1⟩

/-- C4: when the diff contains no new-feature and no modified-logic
category, calculateRecommendedQuestionCount scales the computed count by
0.6 with floor (the integer floor of 3 * count / 5) before clamping to
the configured bounds; at totalLines 300 with only configuration and
documentation categories the base count 6 scales to floor(3.6) = 3
inside the default bounds [2, 10]. -/
theorem calculateRecommendedQuestionCount_noLogic
    (summary : DiffSummary) (minQuestions maxQuestions : Int)
    (h : summary.changes.any (fun c =>
        c.category == ChangeCategory.newFeature ||
        c.category == ChangeCategory.modifiedLogic) = false) :
    calculateRecommendedQuestionCount summary minQuestions maxQuestions =
      max minQuestions (min maxQuestions
        ((3 * (if 10 < summary.filesChanged.length then
            min ((if summary.stats.linesAdded + summary.stats.linesRemoved ≤ 50 then 2
              else if summary.stats.linesAdded + summary.stats.linesRemoved ≤ 200 then
                min 6 (3 + (summary.stats.linesAdded + summary.stats.linesRemoved - 50) / 50)
              else if summary.stats.linesAdded + summary.stats.linesRemoved ≤ 500 then
                min 8 (5 + (summary.stats.linesAdded + summary.stats.linesRemoved - 200) / 100)
              else min 10 (7 + (summary.stats.linesAdded + summary.stats.linesRemoved - 500) / 200)) + 1)
              maxQuestions
          else
            (if summary.stats.linesAdded + summary.stats.linesRemoved ≤ 50 then 2
              else if summary.stats.linesAdded + summary.stats.linesRemoved ≤ 200 then
                min 6 (3 + (summary.stats.linesAdded + summary.stats.linesRemoved - 50) / 50)
              else if summary.stats.linesAdded + summary.stats.linesRemoved ≤ 500 then
                min 8 (5 + (summary.stats.linesAdded + summary.stats.linesRemoved - 200) / 100)
              else min 10 (7 + (summary.stats.linesAdded + summary.stats.linesRemoved - 500) / 200)))) / 5)) ∧
    calculateRecommendedQuestionCount sampleSummary300 2 10 = 3 := by
  constructor
  · unfold calculateRecommendedQuestionCount
    rw [h]
    simp only [Bool.false_eq_true, if_false]
    generalize (if 10 < summary.filesChanged.length then
        min ((if summary.stats.linesAdded + summary.stats.linesRemoved ≤ 50 then 2
          else if summary.stats.linesAdded + summary.stats.linesRemoved ≤ 200 then
            min 6 (3 + (summary.stats.linesAdded + summary.stats.linesRemoved - 50) / 50)
          else if summary.stats.linesAdded + summary.stats.linesRemoved ≤ 500 then
            min 8 (5 + (summary.stats.linesAdded + summary.stats.linesRemoved - 200) / 100)
          else min 10 (7 + (summary.stats.linesAdded + summary.stats.linesRemoved - 500) / 200)) + 1)
          maxQuestions
      else
        (if summary.stats.linesAdded + summary.stats.linesRemoved ≤ 50 then 2
          else if summary.stats.linesAdded + summary.stats.linesRemoved ≤ 200 then
            min 6 (3 + (summary.stats.linesAdded + summary.stats.linesRemoved - 50) / 50)
          else if summary.stats.linesAdded + summary.stats.linesRemoved ≤ 500 then
            min 8 (5 + (summary.stats.linesAdded + summary.stats.linesRemoved - 200) / 100)
          else min 10 (7 + (summary.stats.linesAdded + summary.stats.linesRemoved - 500) / 200))) = c
    omega
  · decide

/-- Witness for C4 at the concrete configuration-and-documentation
summary with 300 changed lines and the default bounds. -/
theorem calculateRecommendedQuestionCount_noLogic_witness :
    sampleSummary300.changes.any (fun c =>
        c.category == ChangeCategory.newFeature ||
        c.category == ChangeCategory.modifiedLogic) = false ∧
    calculateRecommendedQuestionCount sampleSummary300 2 10 = 3 :=
  ⟨by decide, (calculateRecommendedQuestionCount_noLogic sampleSummary300 2 10 (by decide)).2⟩

/-- C7: a question already in a terminal state cannot be scored again:
the session step reports a contract violation as an error instead of
silently ignoring the attempt, while a pending question is scored
exactly once and its verdict recorded. -/
theorem scoreQuestion_no_double (statuses : List QuestionStatus) (i : Nat)
    (verdict : QuestionStatus) (stats : QuizStats) (st : QuestionStatus)
    (hst : statuses[i]? = some st) :
    (st ≠ QuestionStatus.pending →
      scoreQuestion statuses i verdict stats =
        Except.error "question already scored") ∧
    (st = QuestionStatus.pending →
      scoreQuestion statuses i verdict stats =
        Except.ok (statuses.set i verdict, updateStats stats verdict)) := by
  unfold scoreQuestion
  rw [hst]
  cases st <;> simp

/-- Witness for C7: re-scoring the already-correct question 0 errors. -/
theorem scoreQuestion_no_double_witness :
    ([QuestionStatus.correct][0]? = some QuestionStatus.correct) ∧
    QuestionStatus.correct ≠ QuestionStatus.pending ∧
    scoreQuestion [QuestionStatus.correct] 0 QuestionStatus.incorrect
        (createInitialStats 1) =
      Except.error "question already scored" :=
  ⟨by decide, by decide,
    (scoreQuestion_no_double [QuestionStatus.correct] 0 QuestionStatus.incorrect
        (createInitialStats 1) QuestionStatus.correct (by decide)).1 (by decide)⟩

/-- C9: the complexity score is the sum of the four independently capped
sub-scores (file count times 2.5, total lines over 20, distinct
extensions times 5, and the churn factor, which is 0 when no lines were
added so no division by zero arises), clamped to 100, and the result is
an integer in the range 0 to 100. -/
theorem calculateComplexity_spec (files : List ChangedFile) (stats : DiffStats)
    (hA : 0 ≤ stats.linesAdded) (hR : 0 ≤ stats.linesRemoved) :
    calculateComplexity files stats =
      min 100 (jsRound
        (min 25 ((files.length : ℚ) * (5 / 2)) +
         min 25 (((stats.linesAdded : ℚ) + (stats.linesRemoved : ℚ)) / 20) +
         min 25 ((((files.map fun f => fileExtension f.path).dedup).length : ℚ) * 5) +
         (if 0 < stats.linesAdded then
            min 25 ((stats.linesRemoved : ℚ) / (stats.linesAdded : ℚ) * 15)
          else 0))) ∧
    0 ≤ calculateComplexity files stats ∧
    calculateComplexity files stats ≤ 100 := by
  have hAq : (0 : ℚ) ≤ (stats.linesAdded : ℚ) := by exact_mod_cast hA
  have hRq : (0 : ℚ) ≤ (stats.linesRemoved : ℚ) := by exact_mod_cast hR
  have h₁ : (0 : ℚ) ≤ min 25 ((files.length : ℚ) * (5 / 2)) :=
    le_min (by norm_num) (by positivity)
  have h₂ : (0 : ℚ) ≤ min 25 (((stats.linesAdded : ℚ) + (stats.linesRemoved : ℚ)) / 20) :=
    le_min (by norm_num) (div_nonneg (add_nonneg hAq hRq) (by norm_num))
  have h₃ : (0 : ℚ) ≤
      min 25 ((((files.map fun f => fileExtension f.path).dedup).length : ℚ) * 5) :=
    le_min (by norm_num) (by positivity)
  have h₄ : (0 : ℚ) ≤ min 25 ((stats.linesRemoved : ℚ) / (stats.linesAdded : ℚ) * 15) :=
    le_min (by norm_num) (mul_nonneg (div_nonneg hRq hAq) (by norm_num))
  have hcong : ∀ x y : ℚ, x = y → min (100 : ℤ) (jsRound x) = min 100 (jsRound y) :=
    fun x y hxy => by rw [hxy]
  refine ⟨?_, ?_, ?_⟩
  · unfold calculateComplexity
    split_ifs with hpos
    · exact hcong _ _ (by ring)
    · exact hcong _ _ (by ring)
  · unfold calculateComplexity
    refine le_min (by norm_num) ?_
    unfold jsRound
    split_ifs with hpos
    · exact Int.floor_nonneg.mpr (by linarith)
    · exact Int.floor_nonneg.mpr (by linarith)
  · unfold calculateComplexity
    exact min_le_left _ _

/-- Witness for C9 at the sample file list and statistics. -/
theorem calculateComplexity_spec_witness :
    (0 : Int) ≤ sampleStats.linesAdded ∧
    (0 : Int) ≤ sampleStats.linesRemoved ∧
    calculateComplexity sampleFiles sampleStats ≤ 100 :=
  ⟨by decide, by decide,
    (calculateComplexity_spec sampleFiles sampleStats (by decide) (by decide)).2.2⟩

/-- C10: mergeFileData returns a list of exactly the length and order of
the numstat input; every element keeps its path and line counts, only
changeType and newPath are replaced and only when the name-status map
holds that element's path, and elements whose path the map does not hold
pass through unchanged, so paths present only in the map never appear in
the output. -/
theorem mergeFileData_frame (files : List ChangedFile) (m : NameStatusMap) :
    (mergeFileData files m).length = files.length ∧
    (mergeFileData files m).map ChangedFile.path = files.map ChangedFile.path ∧
    (mergeFileData files m).map ChangedFile.linesAdded =
      files.map ChangedFile.linesAdded ∧
    (mergeFileData files m).map ChangedFile.linesRemoved =
      files.map ChangedFile.linesRemoved ∧
    ∀ i (hi : i < files.length) (ho : i < (mergeFileData files m).length),
      (mapGet m (files.get ⟨i, hi⟩).path = none →
        (mergeFileData files m).get ⟨i, ho⟩ = files.get ⟨i, hi⟩) ∧
      ∀ info, mapGet m (files.get ⟨i, hi⟩).path = some info →
        ((mergeFileData files m).get ⟨i, ho⟩).changeType = info.type ∧
        ((mergeFileData files m).get ⟨i, ho⟩).newPath = info.newPath ∧
        ((mergeFileData files m).get ⟨i, ho⟩).path = (files.get ⟨i, hi⟩).path ∧
        ((mergeFileData files m).get ⟨i, ho⟩).linesAdded =
          (files.get ⟨i, hi⟩).linesAdded ∧
        ((mergeFileData files m).get ⟨i, ho⟩).linesRemoved =
          (files.get ⟨i, hi⟩).linesRemoved := by
  refine ⟨?_, ?_, ?_, ?_, ?_⟩
  · simp [mergeFileData]
  · unfold mergeFileData
    rw [List.map_map]
    refine List.map_congr_left fun f _ => ?_
    simp only [Function.comp_apply]
    cases h : mapGet m f.path <;> simp [h]
  · unfold mergeFileData
    rw [List.map_map]
    refine List.map_congr_left fun f _ => ?_
    simp only [Function.comp_apply]
    cases h : mapGet m f.path <;> simp [h]
  · unfold mergeFileData
    rw [List.map_map]
    refine List.map_congr_left fun f _ => ?_
    simp only [Function.comp_apply]
    cases h : mapGet m f.path <;> simp [h]
  · intro i hi ho
    have hget : (mergeFileData files m).get ⟨i, ho⟩ =
        (match mapGet m (files.get ⟨i, hi⟩).path with
          | some statusInfo =>
            { files.get ⟨i, hi⟩ with
                changeType := statusInfo.type, newPath := statusInfo.newPath }
          | none => files.get ⟨i, hi⟩) := by
      unfold mergeFileData
      simp only [List.get_eq_getElem, List.getElem_map]
    constructor
    · intro hnone
      rw [hget, hnone]
    · intro info hsome
      rw [hget, hsome]
      exact ⟨rfl, rfl, rfl, rfl, rfl⟩

/-- Witness for C10: the sample rename map applied to the sample numstat
list rewrites change type and new path of element 0 in place. -/
theorem mergeFileData_frame_witness :
    (0 < sampleFiles.length) ∧
    mapGet sampleMap (sampleFiles.get ⟨0, by decide⟩).path =
      some { type := ChangeType.renamed, newPath := some "new.ts" } ∧
    ((mergeFileData sampleFiles sampleMap).get ⟨0, by decide⟩).changeType =
      ChangeType.renamed :=
  ⟨by decide, by decide,
    (((mergeFileData_frame sampleFiles sampleMap).2.2.2.2 0 (by decide) (by decide)).2
      { type := ChangeType.renamed, newPath := some "new.ts" } (by decide)).1⟩

/-- Splitting a list that avoids the separator yields the whole list as
the only group. -/
theorem splitAux_of_not_mem (sep : Char) (l : List Char) (h : sep ∉ l) :
    splitAux sep l = (l, []) := by
  induction l with
  | nil => rfl
  | cons c rest ih =>
    have hc : ¬ c = sep := by intro e; exact h (by simp [e])
    have hrest : sep ∉ rest := fun e => h (List.mem_cons_of_mem c e)
    simp [splitAux, hc, ih hrest]

/-- Splitting across an explicit separator occurrence: the separator-free
part before it becomes the first group. -/
theorem splitAux_append (sep : Char) (a b : List Char) (h : sep ∉ a) :
    splitAux sep (a ++ sep :: b) =
      (a, (splitAux sep b).1 :: (splitAux sep b).2) := by
  induction a with
  | nil => simp [splitAux]
  | cons c rest ih =>
    have hc : ¬ c = sep := by intro e; exact h (by simp [e])
    have hrest : sep ∉ rest := fun e => h (List.mem_cons_of_mem c e)
    simp [splitAux, ih hrest, hc]

/-- dropWhile is the identity when the head already fails the predicate. -/
theorem dropWhile_eq_self_of_head (p : Char → Bool) (l : List Char)
    (h : ∀ c, l.head? = some c → p c = false) : l.dropWhile p = l := by
  cases l with
  | nil => rfl
  | cons c rest => simp [List.dropWhile_cons, h c rfl]

/-- Trimming is the identity on a list whose two ends are not whitespace. -/
theorem jsTrimChars_eq_self (l : List Char)
    (h1 : ∀ c, l.head? = some c → jsIsWhitespace c = false)
    (h2 : ∀ c, l.getLast? = some c → jsIsWhitespace c = false) :
    jsTrimChars l = l := by
  unfold jsTrimChars
  rw [dropWhile_eq_self_of_head _ _ h1]
  rw [dropWhile_eq_self_of_head _ _ (fun c hc => h2 c (by rwa [List.head?_reverse] at hc))]
  exact List.reverse_reverse l

/-- Appending strings concatenates the underlying character lists. -/
theorem string_data_append (a b : String) : (a ++ b).data = a.data ++ b.data := by
  cases a; cases b; rfl

/-- Rebuilding a string from its character list is the identity. -/
theorem asString_data (s : String) : s.data.asString = s := by
  cases s; rfl

/-- The character list of a rebuilt string is the original list. -/
theorem data_asString (l : List Char) : l.asString.data = l := rfl

/-- A string is empty exactly when its character list is. -/
theorem string_eq_empty_iff (s : String) : s = "" ↔ s.data = [] :=
  String.ext_iff

/-- toLines of a single trimmed non-empty newline-free line is that line. -/
theorem toLines_single (s : String) (hne : s ≠ "") (hnl : '\n' ∉ s.data)
    (hh : ∀ c, s.data.head? = some c → jsIsWhitespace c = false)
    (hl : ∀ c, s.data.getLast? = some c → jsIsWhitespace c = false) :
    toLines s = [s] := by
  have ht : jsTrim s = s := by
    unfold jsTrim
    rw [jsTrimChars_eq_self s.data hh hl, asString_data]
  unfold toLines
  rw [ht]
  unfold jsSplit jsSplitChars
  rw [splitAux_of_not_mem '\n' s.data hnl]
  simp [asString_data, hne]

/-- indexOf reports a miss exactly when the character is absent. -/
theorem jsIndexOf_of_not_mem (l : List Char) (c : Char) (h : c ∉ l) :
    jsIndexOf l c = -1 := by
  induction l with
  | nil => rfl
  | cons d rest ih =>
    have hd : ¬ d = c := by intro e; exact h (by simp [e])
    have hrest : c ∉ rest := fun e => h (List.mem_cons_of_mem d e)
    simp [jsIndexOf, hd, ih hrest]

/-- A commit-log line without any space is discarded by the parser. -/
theorem parseCommitLine_no_space (line : String) (h : ' ' ∉ line.data) :
    parseCommitLine line = none := by
  unfold parseCommitLine
  rw [jsIndexOf_of_not_mem _ _ h]
  rfl

/-- A name-status line with an unknown status code (not a rename, not A,
not D) registers its path as modified. -/
theorem parseNameStatusLine_unknown (m : NameStatusMap) (st p : String)
    (hst : '\t' ∉ st.data) (hp : '\t' ∉ p.data)
    (hR : startsWithR st = false) (hA : st ≠ "A") (hD : st ≠ "D") :
    parseNameStatusLine m (st ++ "\t" ++ p) =
      mapSet m (some p) { type := ChangeType.modified, newPath := none } := by
  have hdata : (st ++ "\t" ++ p).data = st.data ++ '\t' :: p.data := by
    rw [string_data_append, string_data_append]
    simp
  unfold parseNameStatusLine jsSplit jsSplitChars
  rw [hdata, splitAux_append _ _ _ hst, splitAux_of_not_mem _ _ hp]
  simp [asString_data, hR, hA, hD]

/-- C6: a rename line of the name-status format parses to a record keyed
by the old path with change type renamed and newPath set to the new
path, and merging with the numeric-stat pass takes the line counts from
the numstat entry for that path; the documented concrete example yields
exactly one record with path old.ts, changeType renamed, newPath new.ts,
linesAdded 5, linesRemoved 3. -/
theorem parseNameStatus_rename_merge (sim old new : String) (m : NameStatusMap)
    (nf : ChangedFile)
    (hsimT : '\t' ∉ sim.data) (holdT : '\t' ∉ old.data) (hnewT : '\t' ∉ new.data)
    (hsimN : '\n' ∉ sim.data) (holdN : '\n' ∉ old.data) (hnewN : '\n' ∉ new.data)
    (hnewNe : new ≠ "")
    (hnewLast : jsIsWhitespace (new.data.getLastD ' ') = false)
    (hpath : nf.path = some old) :
    parseNameStatusLine m ("R" ++ sim ++ "\t" ++ old ++ "\t" ++ new) =
      mapSet m (some old) { type := ChangeType.renamed, newPath := some new } ∧
    parseNameStatus ("R" ++ sim ++ "\t" ++ old ++ "\t" ++ new) =
      [(some old, { type := ChangeType.renamed, newPath := some new })] ∧
    mergeFileData [nf] (parseNameStatus ("R" ++ sim ++ "\t" ++ old ++ "\t" ++ new)) =
      [{ nf with changeType := ChangeType.renamed, newPath := some new }] ∧
    mergeFileData (parseNumstat "5\t3\told.ts") (parseNameStatus "R100\told.ts\tnew.ts") =
      [{ path := some "old.ts", changeType := ChangeType.renamed,
         linesAdded := some 5, linesRemoved := some 3, newPath := some "new.ts" }] := by
  have hdata : ("R" ++ sim ++ "\t" ++ old ++ "\t" ++ new).data =
      ('R' :: sim.data) ++ '\t' :: (old.data ++ '\t' :: new.data) := by
    rw [string_data_append, string_data_append, string_data_append, string_data_append]
    simp
  have hRsim : '\t' ∉ 'R' :: sim.data := by
    intro hmem
    rcases List.mem_cons.mp hmem with h | h
    · exact absurd h (by decide)
    · exact hsimT h
  have haux : ∀ m' : NameStatusMap,
      parseNameStatusLine m' ("R" ++ sim ++ "\t" ++ old ++ "\t" ++ new) =
        mapSet m' (some old) { type := ChangeType.renamed, newPath := some new } := by
    intro m'
    unfold parseNameStatusLine jsSplit jsSplitChars
    rw [hdata, splitAux_append _ _ _ hRsim, splitAux_append _ _ _ holdT,
      splitAux_of_not_mem _ _ hnewT]
    simp [asString_data, data_asString, startsWithR]
  have hnewData : new.data ≠ [] := fun e => hnewNe (string_eq_empty_iff new |>.mpr e)
  have hsingle : parseNameStatus ("R" ++ sim ++ "\t" ++ old ++ "\t" ++ new) =
      [(some old, { type := ChangeType.renamed, newPath := some new })] := by
    have hone : toLines ("R" ++ sim ++ "\t" ++ old ++ "\t" ++ new) =
        [("R" ++ sim ++ "\t" ++ old ++ "\t" ++ new)] := by
      refine toLines_single _ ?_ ?_ ?_ ?_
      · rw [Ne, string_eq_empty_iff, hdata]
        simp
      · rw [hdata]
        intro hmem
        rcases List.mem_append.mp hmem with h | h
        · rcases List.mem_cons.mp h with h | h
          · exact absurd h (by decide)
          · exact hsimN h
        · rcases List.mem_cons.mp h with h | h
          · exact absurd h (by decide)
          · rcases List.mem_append.mp h with h | h
            · exact holdN h
            · rcases List.mem_cons.mp h with h | h
              · exact absurd h (by decide)
              · exact hnewN h
      · intro c hc
        rw [hdata] at hc
        simp at hc
        cases hc
        decide
      · intro c hc
        rw [hdata] at hc
        rw [show ('R' :: sim.data) ++ '\t' :: (old.data ++ '\t' :: new.data) =
            (('R' :: sim.data) ++ ('\t' :: old.data) ++ ['\t']) ++ new.data by simp] at hc
        rw [List.getLast?_append_of_ne_nil _ hnewData] at hc
        have hcd : new.data.getLastD ' ' = c := by
          rw [List.getLastD_eq_getLast?, hc]
          rfl
        rw [← hcd]
        exact hnewLast
    unfold parseNameStatus
    rw [hone]
    simp only [List.foldl_cons, List.foldl_nil]
    rw [haux []]
    rfl
  refine ⟨haux m, hsingle, ?_, by decide⟩
  rw [hsingle]
  unfold mergeFileData
  simp only [List.map_cons, List.map_nil]
  rw [hpath]
  simp [mapGet]

/-- Witness for C6 at the documented concrete rename. -/
theorem parseNameStatus_rename_merge_witness :
    ('\t' ∉ "100".data) ∧ ('\t' ∉ "old.ts".data) ∧ ('\t' ∉ "new.ts".data) ∧
    mapGet (parseNameStatus ("R" ++ "100" ++ "\t" ++ "old.ts" ++ "\t" ++ "new.ts"))
        (some "old.ts") =
      some { type := ChangeType.renamed, newPath := some "new.ts" } :=
  ⟨by decide, by decide, by decide, by
    rw [(parseNameStatus_rename_merge "100" "old.ts" "new.ts" []
      { path := some "old.ts", changeType := ChangeType.modified,
        linesAdded := some 5, linesRemoved := some 3, newPath := none }
      (by decide) (by decide) (by decide) (by decide) (by decide) (by decide)
      (by decide) (by decide) (by decide)).2.1]
    decide⟩

/-- C8: the three structured-text parsers recover locally from malformed
input: each processes the trimmed input strictly line by line, blank
lines are never processed, a commit-log line lacking a space is
discarded, a name-status line with an unknown status code defaults to
modified, and empty input yields an empty result for all three without
any failure. -/
theorem parsers_recover_locally (s : String) :
    parseNumstat "" = [] ∧
    parseNameStatus "" = [] ∧
    parseCommitLog "" = [] ∧
    (∀ l ∈ toLines s, l ≠ "") ∧
    parseNumstat s = (toLines s).map parseNumstatLine ∧
    parseCommitLog s = (toLines s).filterMap parseCommitLine ∧
    parseNameStatus s = (toLines s).foldl parseNameStatusLine [] ∧
    (∀ line : String, ' ' ∉ line.data → parseCommitLine line = none) ∧
    (∀ (m : NameStatusMap) (st p : String), '\t' ∉ st.data → '\t' ∉ p.data →
      startsWithR st = false → st ≠ "A" → st ≠ "D" →
      parseNameStatusLine m (st ++ "\t" ++ p) =
        mapSet m (some p) { type := ChangeType.modified, newPath := none }) ∧
    parseNumstat "1\t2\ta.ts\n\n3\t4\tb.ts" =
      [{ path := some "a.ts", changeType := ChangeType.modified,
         linesAdded := some 1, linesRemoved := some 2, newPath := none },
       { path := some "b.ts", changeType := ChangeType.modified,
         linesAdded := some 3, linesRemoved := some 4, newPath := none }] ∧
    parseCommitLog "abc123 first change\n\ndef456 second change" =
      [{ sha := "abc123", message := "first change" },
       { sha := "def456", message := "second change" }] := by
  refine ⟨by decide, by decide, by decide, ?_, rfl, rfl, rfl, ?_, ?_, by decide, by decide⟩
  · intro l hl
    have hb := List.of_mem_filter hl
    simpa using hb
  · exact parseCommitLine_no_space
  · exact fun m st p h1 h2 h3 h4 h5 => parseNameStatusLine_unknown m st p h1 h2 h3 h4 h5

/-- Witness for C8: a space-free line is discarded by the commit parser
and an unknown status code X registers its path as modified. -/
theorem parsers_recover_locally_witness :
    (' ' ∉ "nospace".data) ∧
    parseCommitLine "nospace" = none ∧
    ('\t' ∉ "X".data) ∧ ('\t' ∉ "foo.ts".data) ∧
    startsWithR "X" = false ∧
    parseNameStatusLine [] ("X" ++ "\t" ++ "foo.ts") =
      mapSet [] (some "foo.ts") { type := ChangeType.modified, newPath := none } :=
  ⟨by decide,
    (parsers_recover_locally "").2.2.2.2.2.2.2.1 "nospace" (by decide),
    by decide, by decide, by decide,
    (parsers_recover_locally "").2.2.2.2.2.2.2.2.1 [] "X" "foo.ts"
      (by decide) (by decide) (by decide) (by decide) (by decide)⟩
